import Mathlib

/-!
Verification of `jw2epub.py` (Jungle World → EPUB converter).

The Python source is shallowly embedded below. Python strings become Lean
`String`s, but the string primitives the code relies on (`split`, `strip`,
`in`, `endswith`, `replace`) are re-implemented over `List Char` so that
every definition is executable by kernel reduction. Fallible Python code
(uncaught exceptions) is embedded with `Except PyError`; `None` results
become `Option`. Network and filesystem effects are passed explicitly:
the HTTP transport is an oracle `String → FetchOutcome`, the cache
directory is an association list from filenames to file contents.
-/

namespace JW2EPUB

/-- Exceptions the embedded code can raise (only the kinds it actually
meets: `AttributeError` from `None.find` / `dict.append`, `IndexError`
from list indexing, and transport errors other than `BadStatusLine`
escaping `urlopen`). -/
inductive PyError where
  | attributeError
  | indexError
  | transportError
deriving DecidableEq, Repr

deriving instance DecidableEq for Except

/-! ### Python string primitives, re-implemented executably -/

/-- Python `sep.split` for a one-character separator: `"a.b".split('.') = ["a","b"]`,
`"".split('.') = [""]`. Always returns a non-empty list. -/
def splitOnChar (sep : Char) : List Char → List (List Char)
  | [] => [[]]
  | c :: rest =>
    let r := splitOnChar sep rest
    if c = sep then [] :: r
    else
      match r with
      | [] => [[c]]
      | g :: gs => (c :: g) :: gs

/-- Python `s.split(sep)` for a one-character separator, on `String`. -/
def pySplit (sep : Char) (s : String) : List String :=
  (splitOnChar sep s.data).map String.mk

/-- Whitespace as Python `str.strip` sees it (the characters relevant here). -/
def isSpaceChar (c : Char) : Bool :=
  c = ' ' || c = '\t' || c = '\n' || c = '\r'

/-- Python `s.strip()`: drop leading and trailing whitespace. -/
def pyStrip (s : String) : String :=
  String.mk (((s.data.dropWhile isSpaceChar).reverse.dropWhile isSpaceChar).reverse)

/-- Python `needle in hay` on `List Char`: `needle` occurs contiguously in `hay`
(the empty needle occurs in everything). -/
def containsSeq (needle : List Char) : List Char → Bool
  | [] => needle.isEmpty
  | c :: rest => needle.isPrefixOf (c :: rest) || containsSeq needle rest

/-- Python `needle in hay` on `String`. -/
def pyContains (hay needle : String) : Bool :=
  containsSeq needle.data hay.data

/-- Python `s.endswith(suffixStr)`. -/
def pyEndsWith (s suffixStr : String) : Bool :=
  suffixStr.data.isSuffixOf s.data

/-- Python `s.replace('.', '/')` — the only `replace` call in the source;
for a one-character pattern and replacement this is a character map. -/
def replaceDotSlash (s : String) : String :=
  String.mk (s.data.map (fun c => if c = '.' then '/' else c))

/-- `os.path.basename`: everything after the last `/` (the whole string if
there is no `/`). -/
def basename (s : String) : String :=
  match (pySplit '/' s).getLast? with
  | some b => b
  | none => s

/-- `os.path.join a b` for the relative paths the code joins. -/
def joinPath (a b : String) : String := a ++ "/" ++ b

/-! ### The fetch layer (`_fetch_html_url`, `_shall_skip_html`, `_fetch_html`) -/

/-- What one call of `request.urlopen(url).read().decode()` can do:
deliver text, raise `http.client.BadStatusLine`, or raise some other
transport-level exception (e.g. `urllib.error.URLError`). -/
inductive FetchOutcome where
  | ok (html : String)
  | badStatusLine
  | otherError
deriving DecidableEq, Repr

/-- `JW2EPUB._fetch_html_url`: the `try` catches exactly
`client.BadStatusLine` (logging a warning and returning `None`); any other
exception from `urlopen` propagates to the caller. -/
def fetch_html_url : FetchOutcome → Except PyError (Option String)
  | .ok html => .ok (some html)
  | .badStatusLine => .ok none
  | .otherError => .error .transportError

/-- The site-specific sentinel marking an article as not yet published
digitally (line 120 of the source). -/
def skip_text : String :=
  "Diesen Artikel finden Sie bisher nur in der gedruckten Jungle World"

/-- `JW2EPUB._shall_skip_html`: skip on falsy input (`None` or `""`) and on
input containing `skip_text`; keep everything else. -/
def shall_skip_html : Option String → Bool
  | none => true
  | some html =>
    if html = "" then true
    else if pyContains html skip_text then true
    else false

/-- The cache directory, as an association list filename ↦ contents
(`os.path.exists` = membership, reading = lookup, writing = `writeFile`). -/
abbrev Cache := List (String × String)

/-- Lookup in the cache (first binding of the key wins, like a dict). -/
def Cache.read : Cache → String → Option String
  | [], _ => none
  | (k, v) :: rest, key => if k = key then some v else Cache.read rest key

/-- `open(filename, 'w').write(html)`: bind `key` to `v`, replacing an
existing binding, appending otherwise. -/
def Cache.writeFile : Cache → String → String → Cache
  | [], key, v => [(key, v)]
  | (k, w) :: rest, key, v =>
    if k = key then (key, v) :: rest else (k, w) :: Cache.writeFile rest key v

/-- `JW2EPUB._fetch_html`: the index page is always fetched from the net
into `CACHEDIR/index.html`; an article URI is served from
`issue_dir/basename(uri)` when that cache file exists, otherwise fetched
from the net, discarded (and not cached) when `_shall_skip_html` rejects
it, and written to its cache file before being returned otherwise.
Returns the HTML (or `None`) together with the resulting cache state. -/
def fetch_html (cachedir issue_dir : String) (net : String → FetchOutcome)
    (cache : Cache) (uri : String) (is_index : Bool) :
    Except PyError (Option String × Cache) :=
  let filename :=
    if is_index then joinPath cachedir "index.html"
    else joinPath issue_dir (basename uri)
  -- `if not is_index and os.path.exists(filename): fetch from file`
  match (if is_index then none else cache.read filename) with
  | some cached => .ok (some cached, cache)
  | none =>
    -- `else:` fetch from url, skip-check, write-through
    match fetch_html_url (net uri) with
    | .error e => .error e
    | .ok html =>
      if shall_skip_html html then .ok (none, cache)
      else
        match html with
        | some s => .ok (some s, cache.writeFile filename s)
        | none => .ok (none, cache)

/-! ### The issue resolver (`parse_index`, lines 179-183) -/

/-- The issue-number derivation inside `JW2EPUB.parse_index`:

    issue = self.title.split('.')[1:2][0].split(',')[0].strip().split('/')
    century = str(datetime.datetime.now().year)[:2]
    self.issue_no = century + issue[1] + '.' + issue[0]

`title` is the teaser text, `currentYear` stands for
`str(datetime.datetime.now().year)`. `.error .indexError` embeds the
`IndexError` raised by `[1:2][0]` on a title without a `.`-segment, or by
`issue[1]` when the segment has no `/`. -/
def parse_index_issue_no (title currentYear : String) :
    Except PyError String :=
  match (pySplit '.' title).drop 1 with
  | [] => .error .indexError
  | seg :: _ =>
    let beforeComma :=
      match pySplit ',' seg with
      | [] => seg
      | p :: _ => p
    let issue := pySplit '/' (pyStrip beforeComma)
    let century := String.mk (currentYear.data.take 2)
    match issue with
    | i0 :: i1 :: _ => .ok (century ++ i1 ++ "." ++ i0)
    | _ => .error .indexError

/-! ### The markup normalizer (`get_story`) -/

/-- The `<h1>` of a story container as the code queries it: its attribute
dict and the text of a nested `<span>` (absent when there is no span). -/
structure H1Node where
  attrs : List (String × String)
  spanText : Option String
deriving DecidableEq, Repr

/-- The `<div class="story">` content container, reduced to the parts the
code queries: the first `<h1>`, whether a print-button `<div
class="menuR">` / share `<p class="share">` child is present, and the
remaining rendered content. -/
structure StoryDiv where
  h1 : Option H1Node
  hasMenuR : Bool
  hasShare : Bool
  rest : String
deriving DecidableEq, Repr

/-- A fetched article page, reduced to the one query the code makes on it:
`soup.find('div', attrs={'class':'story'})`. -/
structure Page where
  story : Option StoryDiv
deriving DecidableEq, Repr

/-- Rendering of the h1 attribute dict, as `str(story)` would show it. -/
def renderAttrs (attrs : List (String × String)) : String :=
  String.join (attrs.map (fun a => " " ++ a.1 ++ "=" ++ a.2))

/-- Rendering of the `<h1>` (absent h1 renders to nothing). -/
def renderH1 : Option H1Node → String
  | none => ""
  | some h =>
    "<h1" ++ renderAttrs h.attrs ++ ">"
      ++ (match h.spanText with
          | some t => "<span>" ++ t ++ "</span>"
          | none => "")
      ++ "</h1>"

/-- `str(story)` for the story container model. -/
def renderStory (st : StoryDiv) : String :=
  "<div class=story>" ++ renderH1 st.h1
    ++ (if st.hasMenuR then "<div class=menuR></div>" else "")
    ++ (if st.hasShare then "<p class=share></p>" else "")
    ++ st.rest ++ "</div>"

/-- The story dict `{'uri':…, 'title':…, 'html':…}` built by `get_story`. -/
structure Story where
  uri : String
  title : String
  html : String
deriving DecidableEq, Repr

/-- `JW2EPUB.get_story`, for the current `issue_no` and with the fetched,
parsed page supplied by `fetchPage` (`None` = `_fetch_html` returned
`None`). Guards: the URI must end in `.html` and must contain
`issue_no.replace('.', '/')`. The first `try` block executes
`story.find('h1').attrs.append(('class', 'chapter'))`; with bs4,
`Tag.attrs` is a dict, whose missing `.append` raises `AttributeError`
exactly like the `None.attrs` of a missing h1 does, and the bare
`except AttributeError: pass` swallows both — so the story is never
changed by it. The next two `try` blocks extract the `menuR` and `share`
children when present. The title lookup
`story.find('h1').find('span').text` is unguarded: a missing h1 or a
missing span raises an uncaught `AttributeError`. -/
def get_story (issue_no : String) (fetchPage : String → Option Page)
    (uri : String) : Except PyError (Option Story) :=
  if ¬ pyEndsWith uri ".html" then .ok none
  else if ¬ pyContains uri (replaceDotSlash issue_no) then .ok none
  else
    match fetchPage uri with
    | none => .ok none
    | some page =>
      match page.story with
      | none =>
        -- the three try blocks each raise AttributeError on None and pass;
        -- `if story:` is false
        .ok none
      | some story0 =>
        -- try: story.find('h1').attrs.append(('class','chapter'))
        --   → AttributeError (dict has no append / no h1), swallowed
        let story1 := story0
        -- try: story.find('div', {'class': 'menuR'}).extract()
        let story2 : StoryDiv := { story1 with hasMenuR := false }
        -- try: story.find('p', {'class': 'share'}).extract()
        let story3 : StoryDiv := { story2 with hasShare := false }
        match story3.h1 with
        | none => .error .attributeError
        | some h1 =>
          match h1.spanText with
          | none => .error .attributeError
          | some t =>
            .ok (some
              { uri := uri
                title := t
                -- '<html><body>{}</body></html'.format(str(story))
                -- (the source's closing tag really is unterminated)
                html := "<html><body>" ++ renderStory story3
                  ++ "</body></html" })

/-! ### The link collector (`get_stories`) -/

/-- The loop body of `JW2EPUB.get_stories`: `stories` and `parsed`
accumulate appended stories and their URIs. An anchor whose URI is
already in `parsed` is skipped; otherwise `self.get_story(uri)` is
called bare (no `try`), so an exception it raises propagates and aborts
the whole loop. A truthy story is appended together with its URI; a
falsy (`None`) story leaves both accumulators unchanged — `parsed`
records *kept* URIs only, so a later duplicate of a filtered URI is
attempted again. -/
def get_stories_loop (getStory : String → Except PyError (Option Story)) :
    List String → List Story → List String → Except PyError (List Story)
  | [], stories, _ => .ok stories
  | uri :: rest, stories, parsed =>
    if uri ∈ parsed then get_stories_loop getStory rest stories parsed
    else
      match getStory uri with
      | .error e => .error e
      | .ok (some story) =>
        get_stories_loop getStory rest (stories ++ [story]) (parsed ++ [uri])
      | .ok none => get_stories_loop getStory rest stories parsed

/-- `JW2EPUB.get_stories`: `anchors` is the href list of
`soup.findAll('a', attrs={'href': re.compile('/artikel')})` in document
order; the `first` flag skips the first match unconditionally, then the
loop of `get_stories_loop` runs with empty accumulators. `getStory`
stands for `self.get_story`, typed like `get_story` above — in
particular its uncaught `AttributeError` propagates through the
collector. -/
def get_stories (getStory : String → Except PyError (Option Story))
    (anchors : List String) : Except PyError (List Story) :=
  get_stories_loop getStory (anchors.drop 1) [] []

/-! ### The book assembler (`make_book`) and output naming (`run`) -/

/-- The `Epub3` object, reduced to the parts `make_book` writes: metadata
strings, the `files` dict (internal filename ↦ content), the spine
(list of `Joint` page names) and the toc (list of `Section`
title/page pairs). -/
structure Book where
  metadata : List String
  files : List (String × String)
  spine : List String
  toc : List (String × String)
deriving DecidableEq, Repr

/-- The body of the `for story in stories` loop of `make_book`:
`page = os.path.basename(story['uri'])`, then
`book.files[page] = File(...)`, `book.spine.append(Joint(page))`,
`book.toc.append(Section(story['title'], page))`. -/
def add_story (book : Book) (story : Story) : Book :=
  let page := basename story.uri
  { book with
    files := Cache.writeFile book.files page story.html
    spine := book.spine ++ [page]
    toc := book.toc ++ [(story.title, page)] }

/-- `JW2EPUB.make_book`: fixed metadata, the cover bytes under the fixed
name `cover.png`, then one pass of `add_story` over the stories in input
order. `modified` stands for `w3c_utc_date()` and `cover` for the
downloaded cover bytes. -/
def make_book (issue_no modified cover : String) (stories : List Story) :
    Book :=
  let book0 : Book :=
    { metadata :=
        [ "Jungle World " ++ issue_no  -- Title
        , "Jungle World " ++ issue_no  -- Identifier
        , "de"                         -- Language
        , "Redaktion Jungle World"     -- Creator
        , "Jungle World Verlags GmbH"  -- Publisher
        , "jw2epub"                    -- Contributor
        , modified ]                   -- dcterm modified
      files := [("cover.png", cover)]
      spine := []
      toc := [] }
  stories.foldl add_story book0

/-- The output filename computed in `JW2EPUB.run`:
`'JW-{}.epub'.format(self.issue_no)`. -/
def run_filename (issue_no : String) : String :=
  "JW-" ++ issue_no ++ ".epub"

/-! ### Specification-side characterizations and concrete test fixtures -/

/-- Order-preserving first-occurrence de-duplication relative to an
already-seen list: the mathematical characterization the link-collector
claim is checked against. -/
def dedupFirst (seen : List String) : List String → List String
  | [] => []
  | u :: rest =>
    if u ∈ seen then dedupFirst seen rest
    else u :: dedupFirst (seen ++ [u]) rest

/-- A story oracle that succeeds on every URI (for exercising the link
collector independently of the normalizer). -/
def trivialStory (u : String) : Story :=
  { uri := u, title := u, html := u }

/-- `trivialStory` as an always-successful `get_story` stand-in. -/
def allStories : String → Except PyError (Option Story) :=
  fun u => .ok (some (trivialStory u))

/-- A `get_story` stand-in whose every call raises (e.g. an uncaught
transport error escaping the inner `_fetch_html`). -/
def raisingLookup : String → Except PyError (Option Story) :=
  fun _ => .error .transportError

/-- A fetched page whose story container has an `<h1>` (with a nested
span and an empty attribute dict), a print button and a share block. -/
def headedPage : Page :=
  { story := some
      { h1 := some { attrs := [], spanText := some "Ein Titel" }
        hasMenuR := true
        hasShare := true
        rest := "<p>Inhalt</p>" } }

/-- Fetch oracle delivering `headedPage` for every URI. -/
def headedFetch : String → Option Page := fun _ => some headedPage

/-- A fetched page whose story container has an `<h1>` but no nested
`<span>` inside it. -/
def noSpanPage : Page :=
  { story := some
      { h1 := some { attrs := [("class", "headline")], spanText := none }
        hasMenuR := false
        hasShare := false
        rest := "<p>Text</p>" } }

/-- Fetch oracle delivering `noSpanPage` for every URI. -/
def noSpanFetch : String → Option Page := fun _ => some noSpanPage

/-- A fetched page with no `<div class="story">` container at all. -/
def storylessFetch : String → Option Page := fun _ => some { story := none }

/-- Transport oracle: every request dies with a malformed status line. -/
def netBadLine : String → FetchOutcome := fun _ => .badStatusLine

/-- Transport oracle: every request yields a page carrying the
unpublished-article sentinel. -/
def netUnpublished : String → FetchOutcome := fun _ => .ok skip_text

/-- Transport oracle: every request yields a kept article body. -/
def netArticle : String → FetchOutcome := fun _ => .ok "<p>Artikeltext</p>"

/-! ## Helper lemmas -/

/-- `containsSeq` agrees with the mathematical contiguous-subsequence
relation: Python's `needle in hay` holds iff `needle` is an infix. -/
theorem containsSeq_iff_infix (needle hay : List Char) :
    containsSeq needle hay = true ↔ needle <:+: hay := by
  induction hay with
  | nil => simp [containsSeq, List.isEmpty_iff]
  | cons c rest ih =>
    simp [containsSeq, List.infix_cons_iff, ih, List.isPrefixOf_iff_prefix]

/-- Invariant of the `get_stories` loop: when the story lookup succeeds
on every URI (returning a truthy story carrying that URI), no exception
interrupts the loop and the URIs of the accumulated result extend the
already-kept ones by the first-occurrence de-duplication of the
remaining anchors. -/
theorem get_stories_loop_uris
    (gs : String → Except PyError (Option Story))
    (hgs : ∀ u, ∃ st, gs u = Except.ok (some st) ∧ st.uri = u) :
    ∀ (anchors : List String) (stories : List Story) (parsed : List String),
      parsed = stories.map Story.uri →
      (get_stories_loop gs anchors stories parsed).map
          (fun l => l.map Story.uri)
        = Except.ok (stories.map Story.uri ++ dedupFirst parsed anchors) := by
  intro anchors
  induction anchors with
  | nil =>
    intro stories parsed _
    simp [get_stories_loop, dedupFirst, Except.map]
  | cons u rest ih =>
    intro stories parsed hp
    by_cases hmem : u ∈ parsed
    · simp [get_stories_loop, dedupFirst, hmem, ih stories parsed hp]
    · obtain ⟨st, hst, huri⟩ := hgs u
      have hrec := ih (stories ++ [st]) (parsed ++ [u])
        (by simp [hp, huri])
      simp only [get_stories_loop, dedupFirst, hmem, if_neg, if_false, hst]
      rw [hrec]
      simp [huri]

/-- Folding `add_story` appends to spine and toc exactly one entry per
story, in order, built from basename of the URI. -/
theorem foldl_add_story_spec :
    ∀ (stories : List Story) (b : Book),
      (stories.foldl add_story b).spine
          = b.spine ++ stories.map (fun st => basename st.uri)
        ∧ (stories.foldl add_story b).toc
          = b.toc ++ stories.map (fun st => (st.title, basename st.uri)) := by
  intro stories
  induction stories with
  | nil => intro b; simp
  | cons st rest ih =>
    intro b
    have h := ih (add_story b st)
    rw [List.foldl_cons]
    refine ⟨?_, ?_⟩
    · rw [h.1]; simp [add_story]
    · rw [h.2]; simp [add_story]

/-! ## Claim theorems -/

/-- C1, counterexample: for index title text
`"Jungle World Nr. 31/12,2. August 2012"` and current year `"2012"`
(century prefix `"20"`), `parse_index` does NOT derive the issue
identifier `"12.31"` the claim states. -/
theorem C1_counterexample :
    parse_index_issue_no "Jungle World Nr. 31/12,2. August 2012" "2012"
      ≠ Except.ok "12.31" := by
  decide

/-- C1, amended: for the index title text
`"Jungle World Nr. 31/12,2. August 2012"` and current year `"2012"`
(century prefix `"20"`), `parse_index` derives the issue identifier
`"2012.31"` — the century prefix `"20"` concatenated with the two-digit
year suffix `"12"`, a dot, and the issue number `"31"`, exactly as the
claim's own reading `"{century-prefix}{yearSuffix}.{issueNumber}"`
prescribes. -/
theorem C1_issue_no_derivation :
    parse_index_issue_no "Jungle World Nr. 31/12,2. August 2012" "2012"
      = Except.ok "2012.31" := by
  decide

/-- C2: evaluation at the failing input. For a page whose story container
does contain an `<h1>` (with nested span `Ein Titel` and an empty
attribute dict), `get_story` succeeds but the produced fragment's `<h1>`
carries no `class=chapter` marker — `story.find('h1').attrs.append(…)`
raises `AttributeError` on the bs4 attribute dict and the bare
`except AttributeError: pass` swallows it, contradicting the claim and
the code's own comment (`add class chapter for e.g. automatic calibre
TOC generation`). -/
theorem C2_chapter_class_not_added :
    get_story "2024.05" headedFetch "/artikel/2024/05/a.html"
      = Except.ok (some
          { uri := "/artikel/2024/05/a.html"
            title := "Ein Titel"
            html := "<html><body><div class=story><h1><span>Ein Titel</span></h1><p>Inhalt</p></div></body></html" })
    ∧ pyContains
        "<html><body><div class=story><h1><span>Ein Titel</span></h1><p>Inhalt</p></div></body></html"
        "chapter" = false := by
  refine ⟨by decide, by decide⟩

/-- C3, counterexample: the serialized filename performs no
normalization of path-separator characters — for the issue identifier
`"24/05"` the computed filename is `"JW-24/05.epub"`, in which the path
separator `/` survives. -/
theorem C3_counterexample :
    run_filename "24/05" = "JW-24/05.epub"
      ∧ pyContains (run_filename "24/05") "/" = true := by
  refine ⟨rfl, by decide⟩

/-- C3, amended: the output file is named from the site name and the
issue identifier as `"JW-" ++ identifier ++ ".epub"`, the identifier
inserted verbatim (no character normalization); in particular for issue
identifier `"24.05"` the output filename is `"JW-24.05.epub"`. -/
theorem C3_output_filename (issue_no : String) :
    run_filename issue_no = "JW-" ++ issue_no ++ ".epub"
      ∧ run_filename "24.05" = "JW-24.05.epub" :=
  ⟨rfl, rfl⟩

/-- C4, counterexample: not every transport-level fetch error is turned
into absent content — a transport error other than a malformed HTTP
status line (e.g. `urllib.error.URLError`) is not caught by
`except client.BadStatusLine` and propagates instead of returning
`None`. -/
theorem C4_counterexample :
    fetch_html_url FetchOutcome.otherError ≠ Except.ok none
      ∧ fetch_html_url FetchOutcome.otherError
          = Except.error PyError.transportError := by
  refine ⟨by decide, rfl⟩

/-- C4, amended: a malformed-HTTP-status-line fetch error
(`http.client.BadStatusLine`) makes the fetch return absent content
(`None`) to its caller after logging a warning, and the failed fetch is
never retried; every other transport-level error propagates uncaught. -/
theorem C4_transport_error_handling :
    fetch_html_url FetchOutcome.badStatusLine = Except.ok none
      ∧ fetch_html_url FetchOutcome.otherError
          = Except.error PyError.transportError :=
  ⟨rfl, rfl⟩

/-- C10: for an input page whose story content container is present but
whose `<h1>` lacks a nested `<span>`, `get_story` raises an uncaught
`AttributeError` (from the unguarded
`story.find('h1').find('span').text`) instead of returning an article or
absent. -/
theorem C10_missing_span_raises :
    get_story "2024.05" noSpanFetch "/artikel/2024/05/b.html"
      = Except.error PyError.attributeError := by
  decide

/-- C5, counterexample: the collection operation CAN fail. Wiring
`get_stories` to the program's own `get_story` (issue `2024.05`, pages
served by `noSpanFetch`), the anchor list
`["M", "/artikel/2024/05/b.html"]` makes the bare `self.get_story(uri)`
call raise an uncaught `AttributeError` that propagates through the
loop and aborts the collection — refuting the claim's "The operation
never fails". -/
theorem C5_counterexample :
    get_stories (fun u => get_story "2024.05" noSpanFetch u)
        ["M", "/artikel/2024/05/b.html"]
      = Except.error PyError.attributeError := by
  decide

/-- C5, amended: the very first anchor matching the article-path pattern
is unconditionally skipped regardless of its content; when every
per-link story lookup succeeds (each URI yielding a truthy story
carrying it), among the subsequent matches exactly the first occurrence
of each distinct URI is kept, in first-seen order; the empty anchor
list yields the valid empty result; but the operation is not
failure-free — an exception raised by the per-link lookup propagates
out of the collector (the lookup is called bare, with no `try`). -/
theorem C5_link_collection
    (gs : String → Except PyError (Option Story))
    (anchors : List String) :
    ((∀ u, ∃ st, gs u = Except.ok (some st) ∧ st.uri = u) →
        (get_stories gs anchors).map (fun l => l.map Story.uri)
          = Except.ok (dedupFirst [] (anchors.drop 1)))
      ∧ get_stories gs [] = Except.ok []
      ∧ (∀ m u rest e, gs u = Except.error e →
          get_stories gs (m :: u :: rest) = Except.error e) := by
  refine ⟨fun hgs => ?_, rfl, fun m u rest e he => ?_⟩
  · have h := get_stories_loop_uris gs hgs (anchors.drop 1) [] [] (by simp)
    simpa [get_stories] using h
  · simp [get_stories, get_stories_loop, he]

/-- C5, witness: for the anchor list `[M, A, A, B, A]` — masthead decoy
followed by `[A, A, B, A]` — the kept order is `[A, B]`; the empty
anchor list collects nothing; and a lookup that raises on `X` aborts
`[M, X]` with its exception. -/
theorem C5_witness :
    (get_stories allStories ["M", "A", "A", "B", "A"]).map
        (fun l => l.map Story.uri)
      = Except.ok ["A", "B"]
      ∧ get_stories allStories [] = Except.ok []
      ∧ get_stories raisingLookup ["M", "X"]
        = Except.error PyError.transportError := by
  refine ⟨?_, ?_, ?_⟩
  · have h := (C5_link_collection allStories ["M", "A", "A", "B", "A"]).1
      (fun u => ⟨trivialStory u, rfl, rfl⟩)
    rw [h]
    decide
  · exact (C5_link_collection allStories []).2.1
  · exact (C5_link_collection raisingLookup ["M", "X"]).2.2
      "M" "X" [] PyError.transportError rfl

/-- C6: the content filter skips exactly the absent/empty inputs and
those containing the exact unpublished-article sentinel
(`skip_text` occurring contiguously); every other non-empty input is
kept, regardless of surrounding content. -/
theorem C6_skip_iff (h : Option String) :
    shall_skip_html h = true ↔
      h = none ∨ h = some ""
        ∨ ∃ s, h = some s ∧ skip_text.data <:+: s.data := by
  cases h with
  | none => simp [shall_skip_html]
  | some s =>
    by_cases he : s = ""
    · subst he; simp [shall_skip_html]
    · simp only [shall_skip_html, pyContains, if_neg he]
      simp [he, containsSeq_iff_infix]

/-- C7: book assembly ordering. For every input list of articles the
spine entries and the toc entries of the assembled book are exactly the
input list, in order, each entry's page filename being the final path
segment of the article's source URI. -/
theorem C7_book_ordering (issue_no modified cover : String)
    (stories : List Story) :
    (make_book issue_no modified cover stories).spine
        = stories.map (fun st => basename st.uri)
      ∧ (make_book issue_no modified cover stories).toc
        = stories.map (fun st => (st.title, basename st.uri)) := by
  have h := foldl_add_story_spec stories
    { metadata :=
        [ "Jungle World " ++ issue_no
        , "Jungle World " ++ issue_no
        , "de"
        , "Redaktion Jungle World"
        , "Jungle World Verlags GmbH"
        , "jw2epub"
        , modified ]
      files := [("cover.png", cover)]
      spine := []
      toc := [] }
  simpa [make_book] using h

/-- C8: the markup normalizer returns absent whenever the article URI
does not end in `.html`, or the URI does not embed the current issue
identifier in its URI form (`issue_no` with `.` replaced by `/`), or the
fetched page has no story content container; in each case no article is
produced. -/
theorem C8_absent_guards (issue_no : String)
    (fetchPage : String → Option Page) (uri : String) :
    (pyEndsWith uri ".html" = false →
        get_story issue_no fetchPage uri = Except.ok none)
      ∧ (pyContains uri (replaceDotSlash issue_no) = false →
          get_story issue_no fetchPage uri = Except.ok none)
      ∧ (∀ page, fetchPage uri = some page → page.story = none →
          get_story issue_no fetchPage uri = Except.ok none) := by
  refine ⟨fun h1 => by simp [get_story, h1], fun h2 => ?_, ?_⟩
  · by_cases h1 : pyEndsWith uri ".html" <;> simp [get_story, h1, h2]
  · intro page hp hs
    by_cases h1 : pyEndsWith uri ".html" <;>
      by_cases h2 : pyContains uri (replaceDotSlash issue_no) <;>
        simp [get_story, h1, h2, hp, hs]

/-- C8, witness: the three guards at concrete inputs — a URI without the
`.html` ending, a URI of another issue, and a fetched page with no story
container. -/
theorem C8_witness :
    get_story "2024.05" headedFetch "/artikel/2024/05/a.txt"
        = Except.ok none
      ∧ get_story "2024.05" headedFetch "/artikel/2023/01/a.html"
        = Except.ok none
      ∧ get_story "2024.05" storylessFetch "/artikel/2024/05/a.html"
        = Except.ok none :=
  ⟨(C8_absent_guards "2024.05" headedFetch "/artikel/2024/05/a.txt").1
      (by decide),
    (C8_absent_guards "2024.05" headedFetch "/artikel/2023/01/a.html").2.1
      (by decide),
    (C8_absent_guards "2024.05" storylessFetch "/artikel/2024/05/a.html").2.2
      { story := none } rfl rfl⟩

/-- C9: frame effect of `_fetch_html` on the cache for a non-index URI
that misses the cache (and is therefore retrieved from the network): a
transport failure or filtered content yields absent and leaves the cache
exactly unchanged (so a later run fetches the URI from the network
again), while kept content is written to the issue's cache file and
returned. -/
theorem C9_cache_write_iff_kept (cachedir issue_dir : String)
    (net : String → FetchOutcome) (cache : Cache) (uri : String)
    (hmiss : cache.read (joinPath issue_dir (basename uri)) = none) :
    (net uri = FetchOutcome.badStatusLine →
        fetch_html cachedir issue_dir net cache uri false
          = Except.ok (none, cache))
      ∧ (∀ s, net uri = FetchOutcome.ok s →
          shall_skip_html (some s) = true →
          fetch_html cachedir issue_dir net cache uri false
            = Except.ok (none, cache))
      ∧ (∀ s, net uri = FetchOutcome.ok s →
          shall_skip_html (some s) = false →
          fetch_html cachedir issue_dir net cache uri false
            = Except.ok (some s,
                cache.writeFile (joinPath issue_dir (basename uri)) s)) := by
  refine ⟨fun hnet => ?_, fun s hnet hskip => ?_, fun s hnet hskip => ?_⟩
  · simp [fetch_html, hmiss, hnet, fetch_html_url, shall_skip_html]
  · simp [fetch_html, hmiss, hnet, fetch_html_url, hskip]
  · simp [fetch_html, hmiss, hnet, fetch_html_url, hskip]

/-- C9, witness: with an empty cache and the article URI
`/artikel/2024/05/a.html` — a malformed status line and a sentinel page
leave the cache empty and yield absent; a kept article body is written
to `cache/2024.05/a.html` and returned. -/
theorem C9_witness :
    fetch_html "cache" "cache/2024.05" netBadLine [] "/artikel/2024/05/a.html" false
        = Except.ok (none, [])
      ∧ fetch_html "cache" "cache/2024.05" netUnpublished [] "/artikel/2024/05/a.html" false
        = Except.ok (none, [])
      ∧ fetch_html "cache" "cache/2024.05" netArticle [] "/artikel/2024/05/a.html" false
        = Except.ok (some "<p>Artikeltext</p>",
            [("cache/2024.05/a.html", "<p>Artikeltext</p>")]) := by
  refine ⟨?_, ?_, ?_⟩
  · exact (C9_cache_write_iff_kept "cache" "cache/2024.05" netBadLine []
      "/artikel/2024/05/a.html" rfl).1 rfl
  · exact (C9_cache_write_iff_kept "cache" "cache/2024.05" netUnpublished []
      "/artikel/2024/05/a.html" rfl).2.1 skip_text rfl (by decide)
  · have h := (C9_cache_write_iff_kept "cache" "cache/2024.05" netArticle []
      "/artikel/2024/05/a.html" rfl).2.2 "<p>Artikeltext</p>" rfl (by decide)
    simpa using h

end JW2EPUB
